import Mathlib

/-!
Shallow embedding of the fugl warrant-canary server's chain-extension
validator (src/cmd/server/handlers.go). The submit handler is modelled as a
pure state transition: the external collaborators (the `fugl` library's
`OpenProof`, `HashString`, `CanaryVersion`, `SaveToDirectory`) enter as
parameters or as explicitly spec-modelled constants, and the mutable
`ServerState` fields the handler reads and writes are carried explicitly.
-/

namespace Fugl

/-- Modelled from the spec: the single supported protocol version constant
(`fugl.CanaryVersion` lives in the external `fugl` library, not under the
server sources). The handler only ever compares it for equality, so its
concrete value does not matter for any property below. -/
def CanaryVersion : String := "1"

/-- Fields of the parsed, signature-verified canary (`fugl.Canary`) that the
submit handler reads: the protocol version tag, the absolute deadline
instant (modelled as an integer timestamp, `canary.Deadline.Time()`), and
the claimed predecessor hash (`canary.Previous`). -/
structure Canary where
  version : String
  deadline : Int
  previous : String
deriving DecidableEq, Repr

/-- Mutable `ServerState` fields written or branched on by the submit and
latest handlers: `latestCanary` (cached parsed proof, `nil` in Go when no
canary was ever accepted, hence `Option`) and `latestProof` (the newest raw
proof text, `""` when none). The remaining fields (store directory, key
material, the `sync.RWMutex`) are never written by any handler and play no
role in the claims. -/
structure ServerState where
  latestCanary : Option Canary
  latestProof : String
deriving DecidableEq, Repr

/-- Outcome the submit handler writes on the HTTP response: `accepted` is
the final 204 No Content, `rejected msg` is a 400 via `SendRequestError`
with the given body, `persistFailed` is the 500 after `SaveToDirectory`
fails, and `nilDeref` models the nil-pointer panic the Go code reaches when
it reads `canary.Version` after `OpenProof` returned an error (that error
branch sends a 400 but is missing a `return`). -/
inductive SubmitOutcome where
  | accepted
  | rejected (msg : String)
  | persistFailed
  | nilDeref
deriving DecidableEq, Repr

/-- Rejection body for a wrong version field (handlers.go line 105). -/
def unsupportedVersionMsg : String := "Unsupported canary version"

/-- Rejection body for a deadline not in the future (handlers.go line 111). -/
def deadlineNotFutureMsg : String := "Canary must have a deadline in the future"

/-- Rejection body for a non-increasing deadline (handlers.go line 122). -/
def deadlineNotIncreasingMsg : String := "New canary deadline must be after previous deadline"

/-- Rejection body for a failed linkage check (handlers.go line 131). -/
def brokenLinkageMsg : String := "Canary must reference preceeding canary hash"

/-- Condition under which the monotonic-deadline check rejects: mirrors
`h.state.latestCanary != nil && !canary.Deadline.Time().After(latest.Deadline.Time())`
(handlers.go lines 119-125); `a.After(b)` is the strict order `b < a`. -/
def monotonicFails (canary : Canary) (st : ServerState) : Bool :=
  match st.latestCanary with
  | some latest => ! decide (latest.deadline < canary.deadline)
  | none => false

/-- Condition under which the linkage check rejects: mirrors
`h.state.latestProof != "" && fugl.HashString(proof) != canary.Previous`
(handlers.go lines 127-134). Note that the source hashes `proof`, the
submitted raw document itself, not the stored `h.state.latestProof`. -/
def linkageFails (hashString : String → String) (proof : String)
    (canary : Canary) (st : ServerState) : Bool :=
  st.latestProof != "" && hashString proof != canary.previous

/-- The submit handler body after a successful `OpenProof`, as a pure state
transition (handlers.go lines 102-147). Parameters stand for the external
collaborators: `hashString` is `fugl.HashString`, `persistOk` is whether
`fugl.SaveToDirectory` succeeds, `now` is `time.Now()`. The checks run in
source order: version, future deadline (`time.Now().After(deadline)`, so a
rejection needs `deadline < now`), monotonic deadline, linkage, then the
persistence call; only after a successful persistence are `latestProof` and
`latestCanary` assigned, together. -/
def submitCore (hashString : String → String) (persistOk : Bool) (now : Int)
    (proof : String) (canary : Canary) (st : ServerState) :
    SubmitOutcome × ServerState :=
  if canary.version ≠ CanaryVersion then
    (SubmitOutcome.rejected unsupportedVersionMsg, st)
  else if canary.deadline < now then
    (SubmitOutcome.rejected deadlineNotFutureMsg, st)
  else if monotonicFails canary st then
    (SubmitOutcome.rejected deadlineNotIncreasingMsg, st)
  else if linkageFails hashString proof canary st then
    (SubmitOutcome.rejected brokenLinkageMsg, st)
  else if !persistOk then
    (SubmitOutcome.persistFailed, st)
  else
    (SubmitOutcome.accepted, ⟨some canary, proof⟩)

/-- The full `SubmitHandler.ServeHTTP` body (handlers.go lines 93-147).
`openProofResult` is the outcome of the external `fugl.OpenProof` call.
Modelled from the spec: on failure `OpenProof` yields no canary (the Go
value is `nil`); the handler sends an error response but, lacking a
`return`, falls through into the version check and dereferences that nil
pointer — modelled as the `nilDeref` outcome with the state untouched. -/
def ServeHTTP (hashString : String → String) (persistOk : Bool) (now : Int)
    (proof : String) (openProofResult : Except String Canary)
    (st : ServerState) : SubmitOutcome × ServerState :=
  match openProofResult with
  | Except.error _ => (SubmitOutcome.nilDeref, st)
  | Except.ok canary => submitCore hashString persistOk now proof canary st

/-- Modelled from the spec: the chain tip starts empty at process start
("ChainTip starts empty at process start"); the startup code that would
reload state from the store directory is not under src/. -/
def initialState : ServerState := ⟨none, ""⟩

/-- States reachable from the empty initial state by submit-handler calls,
for one fixed hash function. Modelled from the spec: a successful
`OpenProof` implies a nonempty raw document (the signature is verified over
the raw text, so an accepted submission cannot be the empty string); this
side condition on the step is the only fact taken from outside src/. -/
inductive Reachable (hashString : String → String) : ServerState → Prop where
  | init : Reachable hashString initialState
  | step (st : ServerState) (persistOk : Bool) (now : Int) (proof : String)
      (res : Except String Canary)
      (hne : ∀ c, res = Except.ok c → proof ≠ "")
      (hst : Reachable hashString st) :
      Reachable hashString
        (ServeHTTP hashString persistOk now proof res st).2

/-- Concrete state used to exercise the linkage check: a populated tip whose
stored raw proof is `"A"` and whose parsed canary has deadline 10. -/
def tipStateA : ServerState := ⟨some ⟨CanaryVersion, 10, ""⟩, "A"⟩

/-- C1: the source's linkage check hashes the submitted proof itself
(`fugl.HashString(proof)`) instead of the stored predecessor
(`h.state.latestProof`). With the identity function as the modelled hash and
tip document `"A"`: a candidate whose `previous` field equals the hash of
the stored predecessor (`"A"`) is rejected with the broken-linkage message,
while a candidate whose `previous` field equals the hash of its own raw
document (`"B"`) — and therefore does not reference the predecessor — is
accepted and becomes the tip. This refutes the claim that acceptance
requires `previous = hash(tip document)` and exhibits the code slip. -/
theorem linkage_check_hashes_submitted_proof :
    submitCore (fun s => s) true 0 "B" ⟨CanaryVersion, 20, "A"⟩ tipStateA
      = (SubmitOutcome.rejected brokenLinkageMsg, tipStateA)
    ∧ submitCore (fun s => s) true 0 "B" ⟨CanaryVersion, 20, "B"⟩ tipStateA
      = (SubmitOutcome.accepted, ⟨some ⟨CanaryVersion, 20, "B"⟩, "B"⟩) := by
  constructor <;> decide

/-- C2 counterexample: a candidate whose deadline is exactly the current
instant (`now = 5 = deadline`) passes the future-deadline check
(`time.Now().After(deadline)` is false at equality), is accepted on an empty
chain, and becomes the tip — the claim says every such candidate is
rejected and can never become the tip. -/
theorem equal_deadline_candidate_accepted :
    submitCore (fun s => s) true 5 "P" ⟨CanaryVersion, 5, ""⟩ initialState
      = (SubmitOutcome.accepted, ⟨some ⟨CanaryVersion, 5, ""⟩, "P"⟩) := by
  decide

/-- C2 amended: the future-deadline rejection fires exactly when the version
check passed and the current time is strictly after the candidate's
deadline; a deadline equal to `now` passes this check. -/
theorem deadline_not_future_rejection_iff (hashString : String → String)
    (persistOk : Bool) (now : Int) (proof : String) (canary : Canary)
    (st : ServerState) :
    (canary.version = CanaryVersion ∧ canary.deadline < now) ↔
      (submitCore hashString persistOk now proof canary st).1
        = SubmitOutcome.rejected deadlineNotFutureMsg := by
  unfold submitCore
  split_ifs with h1 h2 h3 h4 h5 <;>
    simp_all [unsupportedVersionMsg, deadlineNotFutureMsg,
      deadlineNotIncreasingMsg, brokenLinkageMsg]

/-- C2 amended, witnessed at a concrete input: version matches and
`deadline = 3 < now = 5`, so the handler rejects with the
deadline-not-future message. -/
theorem deadline_not_future_rejection_iff_witness :
    (submitCore (fun s => s) true 5 "P" ⟨CanaryVersion, 3, ""⟩ initialState).1
      = SubmitOutcome.rejected deadlineNotFutureMsg :=
  (deadline_not_future_rejection_iff (fun s => s) true 5 "P"
    ⟨CanaryVersion, 3, ""⟩ initialState).mp ⟨rfl, by decide⟩

/-- C3: the tip commit is ordered after persistence. Whatever the input,
when the persistence call fails the state is never updated; and when all
four validation checks pass, a failing store yields the persist-failure
outcome with the tip unchanged while a succeeding store yields acceptance
with the tip replaced by exactly the submitted raw proof and its parsed
canary, assigned together. -/
theorem commit_only_after_persist_success (hashString : String → String)
    (now : Int) (proof : String) (canary : Canary) (st : ServerState) :
    (submitCore hashString false now proof canary st).2 = st
    ∧ (canary.version = CanaryVersion → ¬ canary.deadline < now →
        monotonicFails canary st = false →
        linkageFails hashString proof canary st = false →
        submitCore hashString false now proof canary st
          = (SubmitOutcome.persistFailed, st)
        ∧ submitCore hashString true now proof canary st
          = (SubmitOutcome.accepted, ⟨some canary, proof⟩)) := by
  unfold submitCore
  constructor
  · split_ifs <;> simp_all
  · intro h1 h2 h3 h4
    simp [h1, h2, h3, h4]

/-- C3 witnessed at a concrete input: empty chain, valid candidate with
deadline 10 at time 0; a failing store leaves the initial state, a
succeeding one installs the candidate. -/
theorem commit_only_after_persist_success_witness :
    submitCore (fun s => s) false 0 "P" ⟨CanaryVersion, 10, ""⟩ initialState
      = (SubmitOutcome.persistFailed, initialState)
    ∧ submitCore (fun s => s) true 0 "P" ⟨CanaryVersion, 10, ""⟩ initialState
      = (SubmitOutcome.accepted, ⟨some ⟨CanaryVersion, 10, ""⟩, "P"⟩) :=
  (commit_only_after_persist_success (fun s => s) 0 "P"
    ⟨CanaryVersion, 10, ""⟩ initialState).2 rfl (by decide) (by decide)
    (by decide)

/-- Helper shared by the state-preservation arguments: every run of the
submit core either leaves the state exactly as given or returns acceptance
with the tip replaced by the submitted raw proof and parsed canary. -/
theorem submitCore_state_unchanged_or_accepted (hashString : String → String)
    (persistOk : Bool) (now : Int) (proof : String) (canary : Canary)
    (st : ServerState) :
    (submitCore hashString persistOk now proof canary st).2 = st
    ∨ submitCore hashString persistOk now proof canary st
        = (SubmitOutcome.accepted, ⟨some canary, proof⟩) := by
  unfold submitCore
  split_ifs <;> simp

/-- C4: every outcome other than acceptance — each of the four rejection
messages, the persistence failure, and the nil-dereference path after an
`OpenProof` error — leaves the observable state exactly as it was before
the call; no rejection or failure path writes to the state. -/
theorem rejection_leaves_state_unchanged (hashString : String → String)
    (persistOk : Bool) (now : Int) (proof : String)
    (res : Except String Canary) (st : ServerState)
    (h : (ServeHTTP hashString persistOk now proof res st).1
      ≠ SubmitOutcome.accepted) :
    (ServeHTTP hashString persistOk now proof res st).2 = st := by
  cases res with
  | error e => rfl
  | ok canary =>
    have h2 : (submitCore hashString persistOk now proof canary st).1
        ≠ SubmitOutcome.accepted := h
    show (submitCore hashString persistOk now proof canary st).2 = st
    rcases submitCore_state_unchanged_or_accepted hashString persistOk now
      proof canary st with hc | hc
    · exact hc
    · rw [hc] at h2
      simp at h2

/-- C4 witnessed at a concrete input: a wrong-version candidate is rejected
and the populated tip is unchanged. -/
theorem rejection_leaves_state_unchanged_witness :
    (ServeHTTP (fun s => s) true 0 "B"
      (Except.ok ⟨"bad-version", 20, "A"⟩) tipStateA).2 = tipStateA :=
  rejection_leaves_state_unchanged (fun s => s) true 0 "B"
    (Except.ok ⟨"bad-version", 20, "A"⟩) tipStateA (by decide)

/-- C5: on an empty chain (nil `latestCanary` and empty `latestProof`),
every candidate with the supported version and a strictly future deadline is
accepted whenever the store succeeds, whatever its `previous` field and
whatever the hash function: both the monotonic-deadline check and the
linkage check are skipped. -/
theorem empty_chain_accepts_any_previous (hashString : String → String)
    (now : Int) (proof : String) (canary : Canary) (st : ServerState)
    (hcanary : st.latestCanary = none) (hproof : st.latestProof = "")
    (hver : canary.version = CanaryVersion) (hfut : now < canary.deadline) :
    submitCore hashString true now proof canary st
      = (SubmitOutcome.accepted, ⟨some canary, proof⟩) := by
  unfold submitCore monotonicFails linkageFails
  rw [hcanary, hproof]
  simp [hver, not_lt_of_gt hfut]

/-- C5 witnessed at a concrete input: empty chain, arbitrary nonsense in the
`previous` field, future deadline — accepted. -/
theorem empty_chain_accepts_any_previous_witness :
    submitCore (fun s => s) true 0 "P" ⟨CanaryVersion, 10, "garbage"⟩
      initialState
      = (SubmitOutcome.accepted, ⟨some ⟨CanaryVersion, 10, "garbage"⟩, "P"⟩) :=
  empty_chain_accepts_any_previous (fun s => s) 0 "P"
    ⟨CanaryVersion, 10, "garbage"⟩ initialState rfl rfl rfl (by decide)

/-- C6: with a non-empty tip, a candidate whose deadline does not strictly
exceed the tip's deadline is rejected with the deadline-not-increasing
message and the state is unchanged (first conjunct, assuming the two earlier
checks passed); and every accepted extension of a non-empty tip carries a
strictly larger deadline and installs the candidate as the new tip (second
conjunct), so deadlines of successive tips strictly increase along any run
of accepted submissions. -/
theorem tip_deadline_strictly_increasing (hashString : String → String)
    (persistOk : Bool) (now : Int) (proof : String) (canary latest : Canary)
    (st st' : ServerState) (htip : st.latestCanary = some latest) :
    (canary.version = CanaryVersion → ¬ canary.deadline < now →
      canary.deadline ≤ latest.deadline →
      submitCore hashString persistOk now proof canary st
        = (SubmitOutcome.rejected deadlineNotIncreasingMsg, st))
    ∧ (submitCore hashString persistOk now proof canary st
        = (SubmitOutcome.accepted, st') →
      latest.deadline < canary.deadline ∧ st'.latestCanary = some canary) := by
  constructor
  · intro hver hfut hle
    unfold submitCore monotonicFails
    rw [htip]
    simp [hver, hfut, not_lt_of_ge hle]
  · intro hacc
    unfold submitCore monotonicFails at hacc
    rw [htip] at hacc
    split_ifs at hacc with h1 h2 h3 h4 h5 <;> simp_all
    exact hacc ▸ rfl

/-- C6 witnessed at a concrete input: tip deadline 10, candidate deadline
10 (equal, not greater) — rejected with the deadline-not-increasing message
and the tip unchanged. -/
theorem tip_deadline_strictly_increasing_witness :
    submitCore (fun s => s) true 0 "B" ⟨CanaryVersion, 10, "x"⟩ tipStateA
      = (SubmitOutcome.rejected deadlineNotIncreasingMsg, tipStateA) :=
  (tip_deadline_strictly_increasing (fun s => s) true 0 "B"
    ⟨CanaryVersion, 10, "x"⟩ ⟨CanaryVersion, 10, ""⟩ tipStateA tipStateA
    rfl).1 rfl (by decide) (by decide)

/-- C7: the checks run in the fixed order version, future deadline,
monotonic deadline, linkage, and the first failing check determines the
reported message — a wrong-version candidate is rejected for the version
whatever its deadline or linkage, and so on down the chain — and the four
rejection messages are pairwise distinct. -/
theorem check_order_first_failure_wins (hashString : String → String)
    (persistOk : Bool) (now : Int) (proof : String) (canary : Canary)
    (st : ServerState) :
    (canary.version ≠ CanaryVersion →
      (submitCore hashString persistOk now proof canary st).1
        = SubmitOutcome.rejected unsupportedVersionMsg)
    ∧ (canary.version = CanaryVersion → canary.deadline < now →
      (submitCore hashString persistOk now proof canary st).1
        = SubmitOutcome.rejected deadlineNotFutureMsg)
    ∧ (canary.version = CanaryVersion → ¬ canary.deadline < now →
      monotonicFails canary st = true →
      (submitCore hashString persistOk now proof canary st).1
        = SubmitOutcome.rejected deadlineNotIncreasingMsg)
    ∧ (canary.version = CanaryVersion → ¬ canary.deadline < now →
      monotonicFails canary st = false →
      linkageFails hashString proof canary st = true →
      (submitCore hashString persistOk now proof canary st).1
        = SubmitOutcome.rejected brokenLinkageMsg)
    ∧ (unsupportedVersionMsg ≠ deadlineNotFutureMsg
      ∧ unsupportedVersionMsg ≠ deadlineNotIncreasingMsg
      ∧ unsupportedVersionMsg ≠ brokenLinkageMsg
      ∧ deadlineNotFutureMsg ≠ deadlineNotIncreasingMsg
      ∧ deadlineNotFutureMsg ≠ brokenLinkageMsg
      ∧ deadlineNotIncreasingMsg ≠ brokenLinkageMsg) := by
  refine ⟨?_, ?_, ?_, ?_, by decide⟩
  · intro h
    unfold submitCore
    simp [h]
  · intro h1 h2
    unfold submitCore
    simp [h1, h2]
  · intro h1 h2 h3
    unfold submitCore
    simp [h1, h2, h3]
  · intro h1 h2 h3 h4
    unfold submitCore
    simp [h1, h2, h3, h4]

/-- C7 witnessed at a concrete input: a wrong-version candidate whose
deadline is also in the past is rejected for the version, the earliest
failing check. -/
theorem check_order_first_failure_wins_witness :
    (submitCore (fun s => s) true 5 "B" ⟨"bad-version", 3, "A"⟩
      tipStateA).1 = SubmitOutcome.rejected unsupportedVersionMsg :=
  (check_order_first_failure_wins (fun s => s) true 5 "B"
    ⟨"bad-version", 3, "A"⟩ tipStateA).1 (by decide)

/-- C9: in every reachable server state, `latestProof` is the empty string
exactly when `latestCanary` is `none`, so the two different emptiness tests
used during validation (`latestCanary != nil` for the monotonic-deadline
check, `latestProof != ""` for the linkage check) always agree on whether
the chain is empty: the initial state has both empty and the only
state-updating path assigns both fields together. -/
theorem emptiness_tests_agree (hashString : String → String)
    (st : ServerState) (h : Reachable hashString st) :
    st.latestProof = "" ↔ st.latestCanary = none := by
  induction h with
  | init => simp [initialState]
  | step st persistOk now proof res hne hst ih =>
    cases res with
    | error e => exact ih
    | ok c =>
      show (submitCore hashString persistOk now proof c st).2.latestProof = ""
        ↔ (submitCore hashString persistOk now proof c st).2.latestCanary
          = none
      rcases submitCore_state_unchanged_or_accepted hashString persistOk now
        proof c st with hc | hc
      · rw [hc]
        exact ih
      · rw [hc]
        simp [hne c rfl]

/-- C9 witnessed at the initial reachable state: both fields empty, so the
equivalence holds there. -/
theorem emptiness_tests_agree_witness :
    initialState.latestProof = "" ↔ initialState.latestCanary = none :=
  emptiness_tests_agree (fun s => s) initialState Reachable.init

/-- C10: the submit handler dereferences the nil canary exactly when
`OpenProof` fails — the error branch writes a 400 response but does not
return, so execution reaches `canary.Version` with a nil pointer; under the
precondition that `OpenProof` succeeded the handler never reaches the nil
dereference, whatever the other inputs. -/
theorem nil_deref_exactly_on_open_proof_error (hashString : String → String)
    (persistOk : Bool) (now : Int) (proof : String) (st : ServerState) :
    (∀ e : String,
      (ServeHTTP hashString persistOk now proof (Except.error e) st).1
        = SubmitOutcome.nilDeref)
    ∧ (∀ c : Canary,
      (ServeHTTP hashString persistOk now proof (Except.ok c) st).1
        ≠ SubmitOutcome.nilDeref) := by
  constructor
  · intro e
    rfl
  · intro c hcontra
    have hcore : (submitCore hashString persistOk now proof c st).1
        = SubmitOutcome.nilDeref := hcontra
    unfold submitCore at hcore
    split_ifs at hcore

/-- C10 witnessed at concrete inputs: a failed `OpenProof` reaches the nil
dereference, a successful one on the same request does not. -/
theorem nil_deref_exactly_on_open_proof_error_witness :
    (ServeHTTP (fun s => s) true 0 "P" (Except.error "bad signature")
      initialState).1 = SubmitOutcome.nilDeref
    ∧ (ServeHTTP (fun s => s) true 0 "P"
      (Except.ok ⟨CanaryVersion, 10, ""⟩) initialState).1
        ≠ SubmitOutcome.nilDeref :=
  ⟨(nil_deref_exactly_on_open_proof_error (fun s => s) true 0 "P"
      initialState).1 "bad signature",
    (nil_deref_exactly_on_open_proof_error (fun s => s) true 0 "P"
      initialState).2 ⟨CanaryVersion, 10, ""⟩⟩

end Fugl
